import Mathlib

/-!
# Verification of the codecrafters-redis-python server against its specification

Shallow embedding of `src/redis/{resp,stream,database,command,persistence}.py`
and `src/app/utils.py`.  Python `str` and `bytes` values are modelled as
`List Char` (the server only ever handles ASCII payloads, so the
character/byte distinction is immaterial here); Python dicts are modelled as
association lists; wall-clock times are modelled in integral milliseconds;
code paths that raise an uncaught Python exception are modelled by `none`.
-/

set_option synthInstance.maxSize 2000

/-- Python `str` (and `bytes`): a list of characters. -/
abbrev Str := List Char

/-- Python string comparison `a < b`: lexicographic on code points. -/
def pyStrLt : Str → Str → Bool
  | [], [] => false
  | [], _ :: _ => true
  | _ :: _, [] => false
  | a :: as, b :: bs =>
    if a.toNat < b.toNat then true
    else if b.toNat < a.toNat then false
    else pyStrLt as bs

/-- Python string comparison `a <= b`. -/
def pyStrLe (a b : Str) : Bool := pyStrLt a b || a == b

/-- Python `s.split('-')`. -/
def pySplitDash : Str → List Str
  | [] => [[]]
  | '-' :: rest => [] :: pySplitDash rest
  | c :: rest =>
    match pySplitDash rest with
    | h :: t => (c :: h) :: t
    | [] => [[c]]

/-- The decimal digit character for `d < 10`. -/
def digitChar : Nat → Char
  | 0 => '0' | 1 => '1' | 2 => '2' | 3 => '3' | 4 => '4'
  | 5 => '5' | 6 => '6' | 7 => '7' | 8 => '8' | _ => '9'

/-- Fuel-driven digit accumulator for `natRepr` (structural, so that the
kernel can evaluate it on concrete inputs). -/
def natReprAux : Nat → Nat → Str → Str
  | 0, _, acc => acc
  | f + 1, n, acc =>
    if n = 0 then acc else natReprAux f (n / 10) (digitChar (n % 10) :: acc)

/-- Python `str(n)` for a non-negative integer (used by f-strings in the source). -/
def natRepr (n : Nat) : Str :=
  if n = 0 then ['0'] else natReprAux n n []

/-- Python `str(i)` for an `int`. -/
def intRepr (i : Int) : Str :=
  if i < 0 then '-' :: natRepr (-i).toNat else natRepr i.toNat

/-- Value of a digit character. -/
def charDigit (c : Char) : Nat := c.toNat - 48

/-- Parse a non-empty all-digit string as a natural number (helper for `pyInt`). -/
def parseNat? (cs : Str) : Option Nat :=
  if cs ≠ [] ∧ cs.all Char.isDigit then
    some (cs.foldl (fun a c => 10 * a + charDigit c) 0)
  else none

/-- Python `int(s)`: an optional leading minus sign followed by digits
(the exotic forms `int` also accepts — whitespace, `+`, underscores — never
reach it in this code base). -/
def pyInt (cs : Str) : Option Int :=
  if cs.head? = some '-' then (parseNat? (cs.drop 1)).map (fun n => -(n : Int))
  else (parseNat? cs).map (fun n => (n : Int))

/-- Python `s.upper()` (ASCII). -/
def pyUpper (cs : Str) : Str := cs.map Char.toUpper

/-- `app/utils.py` `to_pairs`: zip the first half of a list with the second. -/
def toPairs (l : List α) : List (α × α) :=
  (l.take (l.length / 2)).zip (l.drop (l.length / 2))

/-- `app/utils.py` `inc_id`: split at `-` and increment the sequence part. -/
def inc_id (id : Str) : Option Str :=
  match pySplitDash id with
  | [ts, seq] => (pyInt seq).map (fun n => ts ++ '-' :: intRepr (n + 1))
  | _ => none

/-- Python dict lookup (`d.get(k)`). -/
def alookup [DecidableEq κ] : List (κ × ν) → κ → Option ν
  | [], _ => none
  | (k, v) :: t, key => if k = key then some v else alookup t key

/-- Python dict assignment (`d[k] = v`): replace in place, or append a new key. -/
def dset [DecidableEq κ] : List (κ × ν) → κ → ν → List (κ × ν)
  | [], k, v => [(k, v)]
  | (k', v') :: t, k, v => if k' = k then (k, v) :: t else (k', v') :: dset t k v

/-- Python dict deletion (`del d[k]`). -/
def dremove [DecidableEq κ] : List (κ × ν) → κ → List (κ × ν)
  | [], _ => []
  | (k', v) :: t, k => if k' = k then t else (k', v) :: dremove t k

/-! ## `src/redis/resp.py` — encoders -/

/-- `resp.integer`: `:{n}\r\n`. -/
def resp_integer (n : Int) : Str := ':' :: intRepr n ++ ['\r', '\n']

/-- `resp.simple_string`: `+{string}\r\n`. -/
def simple_string (s : Str) : Str := '+' :: s ++ ['\r', '\n']

/-- `resp.simple_error`: `-ERR {string}\r\n`. -/
def simple_error (s : Str) : Str := '-' :: 'E' :: 'R' :: 'R' :: ' ' :: s ++ ['\r', '\n']

/-- `resp.bulk_string`: `$-1\r\n` for `None`, else `${len}\r\n{string}\r\n`.
(The `str(string)` cast in the source is the identity on the `str` arguments
modelled here; integer arguments are rendered with `intRepr` by the callers.) -/
def bulk_string : Option Str → Str
  | none => '$' :: '-' :: '1' :: ['\r', '\n']
  | some s => '$' :: natRepr s.length ++ ['\r', '\n'] ++ s ++ ['\r', '\n']

/-- An item passed to `resp.array`: a `str` or a nested `list`
(`array(item) if type(item) is list else bulk_string(item)`). -/
inductive RItem where
  | str (s : Str)
  | arr (items : List RItem)

mutual

/-- One item of `resp.array`'s generator. -/
def encItem : RItem → Str
  | .str s => bulk_string (some s)
  | .arr l => '*' :: natRepr l.length ++ ['\r', '\n'] ++ encItems l

/-- The joined encodings of a list of items. -/
def encItems : List RItem → Str
  | [] => []
  | x :: xs => encItem x ++ encItems xs

end

/-- `resp.array`: `*{len}\r\n` followed by each item's encoding. -/
def resp_array (items : List RItem) : Str :=
  '*' :: natRepr items.length ++ ['\r', '\n'] ++ encItems items

/-- A command frame's wire form (`Command._pack`, `resp.array(self.array)`
on a list of `str`). -/
def command_pack (array : List Str) : Str := resp_array (array.map RItem.str)

/-! ## `src/redis/resp.py` — decoder -/

/-- Python slice `b[:i]` (negative `i` counts from the end). -/
def pyTake (i : Int) (l : List α) : List α :=
  if 0 ≤ i then l.take i.toNat else l.take (l.length - (-i).toNat)

/-- Python slice `b[i:]` (negative `i` counts from the end). -/
def pyDrop (i : Int) (l : List α) : List α :=
  if 0 ≤ i then l.drop i.toNat else l.drop (l.length - (-i).toNat)

/-- `resp._read_token`: split the buffer at the first `\r\n`
(`none` models the `ValueError` of `buffer.index` when none exists). -/
def read_token : Str → Option (Str × Str)
  | [] => none
  | c :: rest =>
    if c = '\r' ∧ rest.head? = some '\n' then some ([], rest.tail)
    else (read_token rest).map (fun p => (c :: p.1, p.2))

/-- `resp._read_bulk_string`: a `$`-prefixed length token, then that many
bytes, then `\r\n`. -/
def read_bulk_string (buffer : Str) : Option (Str × Str) :=
  (read_token buffer).bind fun (rawLength, buf) =>
    if rawLength.head? = some '$' then
      (pyInt (rawLength.drop 1)).map fun length =>
        (pyTake length buf, pyDrop (length + 2) buf)
    else none

/-- The `for i in range(length)` loop of `resp._read_array`. -/
def read_bulks : Nat → Str → Option (List Str × Str)
  | 0, buf => some ([], buf)
  | n + 1, buf =>
    (read_bulk_string buf).bind fun (s, buf') =>
      (read_bulks n buf').map fun (l, b) => (s :: l, b)

/-- `resp._read_array`: length token after the `*`, then that many bulk
strings (`range` of a negative length is empty). -/
def read_array (buffer : Str) : Option (List Str × Str) :=
  (read_token (buffer.drop 1)).bind fun (rawLength, buf) =>
    (pyInt rawLength).bind fun length => read_bulks length.toNat buf

/-- `resp._read_rdb`: a `$`-prefixed length token then that many raw bytes
(no trailing `\r\n` skipped). -/
def read_rdb (buffer : Str) : Option (Str × Str) :=
  (read_token buffer).bind fun (rawLength, buf) =>
    if rawLength.head? = some '$' then
      (pyInt (rawLength.drop 1)).map fun length =>
        (pyTake length buf, pyDrop length buf)
    else none

/-- Python `b'REDIS' in buffer`. -/
def hasREDIS : Str → Bool
  | [] => false
  | c :: rest => (c :: rest).take 5 == "REDIS".data || hasREDIS rest

/-- `resp.parse`'s `while buffer` loop, with explicit fuel counting loop
iterations.  Each yielded command is its argument array (`Command.parse`
keeps the array verbatim).  A `+`-token and an RDB payload are consumed but
yield nothing (the source only logs them).  A non-empty buffer matching no
branch makes the Python loop spin forever: the model burns fuel without
progress, so every fuel yields `none`. -/
def respParse : Nat → Str → Option (List (List Str))
  | _, [] => some []
  | 0, _ => none
  | fuel + 1, buffer =>
    if buffer.head? = some '*' then
      match read_array buffer with
      | some (arr, rest) => (respParse fuel rest).map (arr :: ·)
      | none => none
    else if buffer.head? = some '+' then
      match read_token buffer with
      | some (_, rest) => respParse fuel rest
      | none => none
    else if hasREDIS buffer then
      match read_rdb buffer with
      | some (_, rest) => respParse fuel rest
      | none => none
    else respParse fuel buffer

/-! ## `src/redis/stream.py` -/

/-- A stream entry `[id, fields]` (`entry = [id, self.array[3:]]`). -/
abbrev Entry := Str × List Str

/-- The stream store `defaultdict(list)`: key to entry list. -/
abbrev SStore := List (Str × List Entry)

/-- `re.search(r'(\d*)-\*', id)` tried at one start position: a greedy digit
run followed by the literal `-*` (giving back digits can never help, since a
given-back character is a digit and so never matches `-`). -/
def tsStarAt (cs : Str) : Option Str :=
  match cs.dropWhile Char.isDigit with
  | '-' :: '*' :: _ => some (cs.takeWhile Char.isDigit)
  | _ => none

/-- `re.search(r'(\d*)-\*', id)`: leftmost match, returning group 1. -/
def searchTsStar : Str → Option Str
  | [] => none
  | c :: rest => (tsStarAt (c :: rest)).orElse fun _ => searchTsStar rest

/-- `Stream.add`.  Returns the RESP reply and the new store; `none` models an
uncaught exception (`split` unpacking or `int()` on a malformed stored id).
Note `self.store[key]` is a `defaultdict` access: it inserts an empty entry
list for a missing key even on the error paths.  The truthiness guard
`if last_entry_id:` treats an empty stored id like an absent one, so the
model collapses both to `none` before the branches. -/
def Stream.add (store : SStore) (key : Str) (entry : Entry) (nowMs : Nat) :
    Option (Str × SStore) :=
  let id := entry.1
  let entries := (alookup store key).getD []
  let store1 := dset store key entries
  if id = "0-0".data then
    some (simple_error "The ID specified in XADD must be greater than 0-0".data, store1)
  else
    let lastId : Option Str :=
      entries.getLast?.bind fun e => if e.1 = [] then none else some e.1
    (match lastId with
     | none => some none
     | some l =>
       match pySplitDash l with
       | [ts, seq] => some (some (ts, seq))
       | _ => none).bind fun last? =>
    let append : Str → Option (Str × SStore) := fun newId =>
      some (bulk_string (some newId),
            dset store1 key (entries ++ [(newId, entry.2)]))
    match searchTsStar id with
    | some ts =>
      (match last? with
       | none => some (ts ++ '-' :: (if ts = "0".data then "1".data else "0".data))
       | some (lastTs, lastSeq) =>
         if pyStrLt lastTs ts then some (ts ++ "-0".data)
         else (pyInt lastSeq).map fun n => ts ++ '-' :: intRepr (n + 1)).bind append
    | none =>
      if id = "*".data then
        (match last? with
         | none => some (natRepr nowMs ++ "-0".data)
         | some (lastTs, lastSeq) =>
           (pyInt lastSeq).map fun n => lastTs ++ '-' :: intRepr (n + 1)).bind append
      else
        match lastId with
        | some l =>
          if pyStrLe id l then
            some (simple_error
              "The ID specified in XADD is equal or smaller than the target stream top item".data,
              store1)
          else append id
        | none => append id

/-- `Stream.read`: `self.store.get(key)` (no default insertion). -/
def Stream.read (store : SStore) (key : Str) : Option (List Entry) :=
  alookup store key

/-- `Stream.range`: filter the stored entries by the string-comparison test
with `-`/`+` sentinels (`none` models the `TypeError` of filtering `None`
when the key is absent). -/
def Stream.range (store : SStore) (key start stop : Str) : Option (List Entry) :=
  (alookup store key).map fun entries =>
    entries.filter fun e =>
      (start == "-".data || pyStrLe start e.1) && (stop == "+".data || pyStrLe e.1 stop)

/-- A `StreamTrigger`: its `(key, min-id)` conditions and whether its
`asyncio.Event` has been set. -/
structure StreamTrig where
  conditions : List (Str × Str)
  fired : Bool
deriving DecidableEq, Repr

/-- `DatabaseMaster.check_stream_triggers`: drop already-fired triggers, then
set the event of each trigger with a condition whose key equals `key` and
whose min-id is `<` the (raw) id, under Python string comparison. -/
def check_stream_triggers (trigs : List StreamTrig) (key id : Str) : List StreamTrig :=
  (trigs.filter fun t => !t.fired).map fun t =>
    if t.conditions.any fun c => c.1 == key && pyStrLt c.2 id then
      { t with fired := true }
    else t

/-- `CommandXAdd._respond`: fire the stream triggers on the *raw* id, then
perform the add. -/
def command_xadd (trigs : List StreamTrig) (store : SStore) (array : List Str)
    (nowMs : Nat) : Option (List StreamTrig × (Str × SStore)) :=
  match array with
  | _ :: key :: id :: fields =>
    (Stream.add store key (id, fields) nowMs).map fun r =>
      (check_stream_triggers trigs key id, r)
  | _ => none

/-- `CommandXRange._respond` (the reply is `resp.array` of the result; the
entry list itself is what the claims speak about). -/
def command_xrange (store : SStore) (array : List Str) : Option (List Entry) :=
  match array with
  | [_, key, start, stop] => Stream.range store key start stop
  | _ => none

/-- `CommandXRread._replace_dollars` over `self.array[4:]`: for pair `i`
whose id is `$`, write the stream's last id (or `0-0` when empty) back at
position `2*i+1`; `none` models the `len(None)` crash on a missing key. -/
def replace_dollars : List (Str × Str) → Nat → SStore → List Str → Option (List Str)
  | [], _, _, arr => some arr
  | (key, id) :: ps, i, store, arr =>
    if id = "$".data then
      (alookup store key).bind fun entries =>
        let newId := if entries.length = 0 then "0-0".data
                     else (entries.getLast?.map (·.1)).getD []
        replace_dollars ps (i + 1) store (arr.set (2 * i + 1) newId)
    else replace_dollars ps (i + 1) store arr

/-- The `BLOCK` arm of `CommandXRread._respond` up to registration: replace
`$` ids, then build the `StreamTrigger` from the resulting pair list. -/
def xread_block_register (streamsArr : List Str) (store : SStore) : Option StreamTrig :=
  (replace_dollars (toPairs streamsArr) 0 store streamsArr).map fun arr =>
    ⟨toPairs arr, false⟩

/-- The spec's comparison on ids, for stating the claims: parse both sides
as numeric `(ms, seq)` pairs and compare component-wise. -/
def specIdNum (cs : Str) : Option (Nat × Nat) :=
  match pySplitDash cs with
  | [a, b] => (parseNat? a).bind fun x => (parseNat? b).map fun y => (x, y)
  | _ => none

/-- Spec-side strict numeric id comparison `(ms, seq) <lex (ms', seq')`. -/
def specIdNumLt (a b : Str) : Bool :=
  match specIdNum a, specIdNum b with
  | some (m1, s1), some (m2, s2) => decide (m1 < m2 ∨ (m1 = m2 ∧ s1 < s2))
  | _, _ => false

/-! ## `src/redis/database.py` — key/value store, master and replica state -/

/-- A value Python's untyped code can stash in `Database.store` or read from
an RDB file: a string or (from the 8-bit-integer encoding) an int. -/
inductive PyVal where
  | s (v : Str)
  | i (n : Nat)
deriving DecidableEq, Repr

/-- `Database.store`: keys and values can both legitimately be `None` when
they come from an RDB file with unsupported encodings, so both sides are
`Option`s; the second component is the absolute expiry in ms. -/
abbrev DBStore := List (Option PyVal × (Option PyVal × Option Int))

/-- `Database.set`. -/
def Database.set (store : DBStore) (key value : Option PyVal) (expiry : Option Int) :
    DBStore :=
  dset store key (value, expiry)

/-- `Database.get` at wall-clock `nowMs`: returns the Python return value and
the updated store (lazy expiry deletes the entry).  `if expiry and now >= expiry`
skips both a `None` and a `0` expiry (Python falsiness). -/
def Database.get (store : DBStore) (key : Str) (nowMs : Int) :
    Option PyVal × DBStore :=
  match alookup store (some (.s key)) with
  | none => (none, store)
  | some (v, e?) =>
    match e? with
    | some e =>
      if e ≠ 0 ∧ nowMs ≥ e then (none, dremove store (some (.s key))) else (v, store)
    | none => (v, store)

/-- `str()` cast applied by `resp.bulk_string` to a non-`None` value. -/
def pyValStr : PyVal → Str
  | .s v => v
  | .i n => natRepr n

/-- `CommandSet._respond` on a master: parse `PX`, compute
`px and (now + px)` (so `PX 0` stores the falsy expiry `0`), store, reply
`+OK`.  `none` models an `IndexError`/`ValueError` on malformed arguments;
the propagation to replicas is modelled separately by `propagate_command`. -/
def command_set (array : List Str) (nowMs : Int) (store : DBStore) :
    Option (Str × DBStore) :=
  match array with
  | _cmd :: key :: value :: rest =>
    (if rest.length = 2 ∧ pyUpper ((rest.get? 0).getD []) = "PX".data then
       (pyInt ((rest.get? 1).getD [])).map some
     else some none).map fun px? =>
      let expiry : Option Int :=
        match px? with
        | none => none
        | some p => if p = 0 then some 0 else some (nowMs + p)
      (simple_string "OK".data,
       Database.set store (some (.s key)) (some (.s value)) expiry)
  | _ => none

/-- `CommandGet._respond`: `bulk_string(db.get(key))`. -/
def command_get (array : List Str) (nowMs : Int) (store : DBStore) :
    Option (Str × DBStore) :=
  match array with
  | _ :: key :: _ =>
    let (v, store') := Database.get store key nowMs
    some (bulk_string (v.map pyValStr), store')
  | _ => none

/-- `CommandType._respond`: `string` if the key/value store holds the key,
else `stream` if the stream store does, else `none` (the `db.get` call can
lazily expire the entry, hence the returned store). -/
def command_type (array : List Str) (nowMs : Int) (store : DBStore)
    (sstore : SStore) : Option (Str × DBStore) :=
  match array with
  | _ :: key :: _ =>
    let (v, store') := Database.get store key nowMs
    if v ≠ none then some (simple_string "string".data, store')
    else if Stream.read sstore key ≠ none then some (simple_string "stream".data, store')
    else some (simple_string "none".data, store')
  | _ => none

/-- A `WaitTrigger`: requested replica count and target master offset. -/
structure WaitTrig where
  numReplicas : Int
  masterOffset : Nat
deriving DecidableEq, Repr

/-- The master-side state touched by WAIT and propagation. -/
structure MasterState where
  masterReplOffset : Nat
  replicaOffsets : List Int
  waitTriggers : List WaitTrig
deriving DecidableEq, Repr

/-- `DatabaseMaster.propagate_command`: add the frame's byte length to
`master_repl_offset` (and write the frame to every replica socket). -/
def propagate_command (st : MasterState) (command : Str) : MasterState :=
  { st with masterReplOffset := st.masterReplOffset + command.length }

/-- `DatabaseMaster.replication_count_acks_by_offset`. -/
def count_acks (st : MasterState) (offset : Nat) : Nat :=
  (st.replicaOffsets.filter fun r => (offset : Int) ≤ r).length

/-- The `REPLCONF GETACK *` frame WAIT propagates. -/
def getAckFrame : Str :=
  resp_array (["REPLCONF".data, "GETACK".data, "*".data].map RItem.str)

/-- The synchronous part of `CommandWait._respond` on a master (everything up
to the `await` on the trigger event): count acks at the captured offset; on
the fast path reply at once; otherwise register a `WaitTrigger` at the
captured offset and, when that offset is positive, propagate the GETACK
frame.  Returns the immediate reply (if any), the new state, and the
registered trigger (if any); the timeout wait and the post-await recount are
wall-clock behaviour outside this state model. -/
def command_wait_sync (st : MasterState) (numReplicas _timeout : Int) :
    Option Str × MasterState × Option WaitTrig :=
  let captured := st.masterReplOffset
  let acks := count_acks st captured
  if (acks : Int) ≥ numReplicas then (some (resp_integer acks), st, none)
  else
    let trig : WaitTrig := ⟨numReplicas, captured⟩
    let st1 := { st with waitTriggers := st.waitTriggers ++ [trig] }
    if 0 < captured then (none, propagate_command st1 getAckFrame, some trig)
    else (none, st1, some trig)

/-- The offset side effect of `Command.execute`: on a replica the packed
frame's byte length is added to `slave_repl_offset` after computing the
reply and before writing it — for every command, with no check of which
connection (`fromMasterConn`) delivered it. -/
def execute_offset (role : Str) (slaveReplOffset : Nat) (array : List Str)
    (_fromMasterConn : Bool) : Nat :=
  if role = "slave".data then slaveReplOffset + (command_pack array).length
  else slaveReplOffset

/-! ## `src/redis/persistence.py` -/

/-- What `Persistence._read_length` returns: a direct 6-bit length (top bits
`00`), the 8-bit-integer marker string (top bits `11`), or Python `None` for
the unsupported encodings (top bits `01` and `10`). -/
inductive LengthVal where
  | num (n : Nat)
  | int8
  | pynone
deriving DecidableEq, Repr

/-- `Persistence._read_length` on the remaining file bytes (`none` models the
`struct.error` of unpacking an empty read at end of file). -/
def read_length (input : List Nat) : Option (LengthVal × List Nat) :=
  match input with
  | [] => none
  | b :: rest =>
    match b >>> 6 with
    | 0 => some (.num b, rest)
    | 3 => some (.int8, rest)
    | _ => some (.pynone, rest)

/-- `Persistence._read_string`: a counted string, an 8-bit integer, or `None`
when the length encoding is unsupported (`bytes.decode` is the identity on
the ASCII payloads modelled here). -/
def read_string (input : List Nat) : Option (Option PyVal × List Nat) :=
  (read_length input).bind fun (lv, rest) =>
    match lv with
    | .num n => some (some (.s ((rest.take n).map Char.ofNat)), rest.drop n)
    | .int8 =>
      match rest with
      | [] => none
      | b :: r => some (some (.i b), r)
    | .pynone => some (none, rest)

/-- The loader state: remaining file bytes plus the fields `Persistence.__init__`
fills in (only the key/value store matters to the claims; the aux map and the
sizes are carried for faithfulness). -/
structure RDBState where
  input : List Nat
  store : DBStore
  aux : List (Option PyVal × Option PyVal)
  dbSize : Option LengthVal
  expirySize : Option LengthVal
  dbNumber : Option LengthVal
  checksum : List Nat
deriving DecidableEq, Repr

/-- `Persistence._set_kv_pair`: read key and value, store them with the given
expiry — even when an unsupported length encoding made them `None`. -/
def set_kv_pair (st : RDBState) (px : Option Int) : Option RDBState :=
  (read_string st.input).bind fun (key, r1) =>
    (read_string r1).map fun (value, r2) =>
      { st with input := r2, store := Database.set st.store key value px }

/-- Little-endian `struct.unpack('<Q', eight bytes)`. -/
def leQuad (bs : List Nat) : Nat :=
  bs.foldr (fun b acc => b + 256 * acc) 0

/-- One iteration of the `while True` loop in `Persistence.__init__`
(`_parse_next`): returns the new state and whether `StopIteration` was
raised.  An opcode byte matching no case is skipped; a read at end of file
returns `b''`, matches no case, and leaves the state unchanged, which in
Python spins forever. -/
def parse_next (st : RDBState) : Option (RDBState × Bool) :=
  match st.input with
  | [] => some (st, false)
  | op :: rest =>
    let st := { st with input := rest }
    if op = 0xFA then
      (read_string st.input).bind fun (key, r1) =>
        (read_string r1).map fun (value, r2) =>
          ({ st with input := r2, aux := dset st.aux key value }, false)
    else if op = 0xFB then
      (read_length st.input).bind fun (a, r1) =>
        (read_length r1).map fun (b, r2) =>
          ({ st with input := r2, dbSize := some a, expirySize := some b }, false)
    else if op = 0xFC then
      if 8 ≤ st.input.length then
        let ts := leQuad (st.input.take 8)
        let st := { st with input := (st.input.drop 8).drop 1 }
        (set_kv_pair st (some ts)).map fun st' => (st', false)
      else none
    else if op = 0xFE then
      (read_length st.input).map fun (a, r1) =>
        ({ st with input := r1, dbNumber := some a }, false)
    else if op = 0xFF then
      some ({ st with input := st.input.drop 8, checksum := st.input.take 8 }, true)
    else if op = 0 then
      (set_kv_pair st none).map fun st' => (st', false)
    else some (st, false)

/-- The `while True` loop with fuel (one unit per iteration). -/
def load_loop : Nat → RDBState → Option RDBState
  | 0, _ => none
  | fuel + 1, st =>
    (parse_next st).bind fun (st', stop) =>
      if stop then some st' else load_loop fuel st'

/-- `Persistence.__init__` on the raw file bytes: check the magic, parse the
version, then run the opcode loop.  `none` models an uncaught exception (the
`assert` on the magic, `int()` on the version) or the infinite loop on a
file with no `0xFF` terminator; `input.length + 1` iterations are enough for
any file that does terminate, since every iteration before the terminator
consumes at least one byte. -/
def persistence_init (bytes : List Nat) : Option RDBState :=
  if bytes.take 5 = "REDIS".data.map Char.toNat then
    let rest := bytes.drop 5
    (pyInt ((rest.take 4).map Char.ofNat)).bind fun _version =>
      load_loop (rest.length + 1)
        ⟨rest.drop 4, [], [], none, none, none, []⟩
  else none

/-! ## Helper lemmas: decimal rendering round-trips with parsing -/

theorem natReprAux_eq_digits :
    ∀ (fuel n : Nat) (acc : Str), n ≤ fuel →
      natReprAux fuel n acc = ((Nat.digits 10 n).map digitChar).reverse ++ acc := by
  intro fuel
  induction fuel with
  | zero =>
    intro n acc h
    interval_cases n
    simp [natReprAux]
  | succ f ih =>
    intro n acc h
    by_cases hn : n = 0
    · subst hn; simp [natReprAux]
    · have hpos : 0 < n := Nat.pos_of_ne_zero hn
      have hdiv : n / 10 ≤ f := by
        have := Nat.div_lt_self hpos (by norm_num : 1 < 10)
        omega
      rw [natReprAux, if_neg hn, ih (n / 10) _ hdiv,
        Nat.digits_def' (by norm_num : 1 < 10) hpos]
      simp

theorem natRepr_eq_digits (n : Nat) (h : n ≠ 0) :
    natRepr n = ((Nat.digits 10 n).map digitChar).reverse := by
  rw [natRepr, if_neg h, natReprAux_eq_digits n n [] le_rfl, List.append_nil]

theorem charDigit_digitChar {d : Nat} (h : d < 10) : charDigit (digitChar d) = d := by
  interval_cases d <;> decide

theorem isDigit_digitChar {d : Nat} (h : d < 10) : (digitChar d).isDigit = true := by
  interval_cases d <;> decide

theorem natRepr_all_digits (n : Nat) : ∀ c ∈ natRepr n, c.isDigit = true := by
  by_cases h : n = 0
  · subst h; decide
  · rw [natRepr_eq_digits n h]
    intro c hc
    rw [List.mem_reverse, List.mem_map] at hc
    obtain ⟨d, hd, rfl⟩ := hc
    exact isDigit_digitChar (Nat.digits_lt_base (by norm_num) hd)

theorem natRepr_ne_nil (n : Nat) : natRepr n ≠ [] := by
  by_cases h : n = 0
  · subst h; decide
  · rw [natRepr_eq_digits n h]
    simp [Nat.digits_ne_nil_iff_ne_zero.mpr h]

theorem foldr_charDigit_eq_ofDigits (ds : List Nat) (h : ∀ d ∈ ds, d < 10) :
    ds.foldr (fun d a => 10 * a + charDigit (digitChar d)) 0 = Nat.ofDigits 10 ds := by
  induction ds with
  | nil => simp [Nat.ofDigits]
  | cons d t iht =>
    have hd : d < 10 := h d (List.mem_cons_self d t)
    rw [List.foldr_cons, iht (fun x hx => h x (List.mem_cons_of_mem d hx)),
      charDigit_digitChar hd, Nat.ofDigits_cons]
    ring

theorem parseNat?_natRepr (n : Nat) : parseNat? (natRepr n) = some n := by
  by_cases h : n = 0
  · subst h; decide
  · rw [parseNat?, if_pos ⟨natRepr_ne_nil n, List.all_eq_true.mpr (natRepr_all_digits n)⟩]
    congr 1
    rw [natRepr_eq_digits n h, List.foldl_reverse, List.foldr_map]
    rw [foldr_charDigit_eq_ofDigits _ (fun d hd => Nat.digits_lt_base (by norm_num) hd)]
    exact Nat.ofDigits_digits 10 n

theorem natRepr_head_digit (n : Nat) :
    ∃ c t, natRepr n = c :: t ∧ c.isDigit = true := by
  obtain ⟨c, t, h⟩ := List.exists_cons_of_ne_nil (natRepr_ne_nil n)
  exact ⟨c, t, h, natRepr_all_digits n c (h ▸ List.mem_cons_self c t)⟩

theorem pyInt_natRepr (n : Nat) : pyInt (natRepr n) = some (n : Int) := by
  obtain ⟨c, t, hct, hc⟩ := natRepr_head_digit n
  have hne : c ≠ '-' := by
    intro h; rw [h] at hc; exact absurd hc (by decide)
  rw [pyInt, hct, if_neg (by simp [hne]), ← hct, parseNat?_natRepr]
  rfl

theorem natRepr_no_cr (n : Nat) : '\r' ∉ natRepr n := by
  intro h
  have := natRepr_all_digits n '\r' h
  exact absurd this (by decide)

/-! ## Helper lemmas: the RESP decoder inverts the encoder -/

theorem read_token_append (cs rest : Str) (h : '\r' ∉ cs) :
    read_token (cs ++ '\r' :: '\n' :: rest) = some (cs, rest) := by
  induction cs with
  | nil => simp [read_token]
  | cons c t iht =>
    have hc : c ≠ '\r' := fun hh => h (hh ▸ List.mem_cons_self c t)
    rw [List.cons_append, read_token, if_neg (by simp [hc]),
      iht (fun hm => h (List.mem_cons_of_mem c hm))]
    rfl

theorem read_bulk_string_enc (s rest : Str) :
    read_bulk_string (bulk_string (some s) ++ rest) = some (s, rest) := by
  have hbuf : bulk_string (some s) ++ rest =
      ('$' :: natRepr s.length) ++ '\r' :: '\n' :: (s ++ '\r' :: '\n' :: rest) := by
    simp [bulk_string]
  have hnocr : '\r' ∉ '$' :: natRepr s.length := by
    intro h
    rcases List.mem_cons.mp h with h | h
    · exact absurd h (by decide)
    · exact natRepr_no_cr s.length h
  rw [hbuf, read_bulk_string, read_token_append _ _ hnocr]
  simp only [Option.bind_eq_bind, Option.some_bind, List.head?_cons, List.drop_one,
    List.tail_cons]
  rw [if_pos trivial, pyInt_natRepr]
  have htake : pyTake (s.length : Int) (s ++ '\r' :: '\n' :: rest) = s := by
    rw [pyTake, if_pos (by positivity), Int.toNat_natCast, List.take_left]
  have hdrop : pyDrop ((s.length : Int) + 2) (s ++ '\r' :: '\n' :: rest) = rest := by
    have h2 : s ++ '\r' :: '\n' :: rest = (s ++ ['\r', '\n']) ++ rest := by simp
    rw [pyDrop, if_pos (by positivity), h2]
    have hlen : ((s.length : Int) + 2).toNat = (s ++ ['\r', '\n']).length := by
      simp; omega
    rw [hlen, List.drop_left]
  simp [htake, hdrop]

theorem read_bulks_enc (items : List Str) (rest : Str) :
    read_bulks items.length (encItems (items.map RItem.str) ++ rest) =
      some (items, rest) := by
  induction items generalizing rest with
  | nil => simp [read_bulks, encItems]
  | cons s t iht =>
    have henc : encItems ((s :: t).map RItem.str) ++ rest =
        bulk_string (some s) ++ (encItems (t.map RItem.str) ++ rest) := by
      simp [encItems, encItem]
    rw [List.length_cons, henc, read_bulks, read_bulk_string_enc]
    simp [iht rest]

theorem read_array_enc (items : List Str) (rest : Str) :
    read_array (resp_array (items.map RItem.str) ++ rest) = some (items, rest) := by
  have hbuf : resp_array (items.map RItem.str) ++ rest =
      '*' :: (natRepr items.length ++
        '\r' :: '\n' :: (encItems (items.map RItem.str) ++ rest)) := by
    simp [resp_array]
  rw [hbuf, read_array, List.drop_one, List.tail_cons,
    read_token_append _ _ (natRepr_no_cr items.length)]
  simp only [Option.bind_eq_bind, Option.some_bind]
  rw [pyInt_natRepr]
  simp only [Option.some_bind, Int.toNat_natCast]
  exact read_bulks_enc items rest

/-! ## Helper lemmas: dict operations -/

theorem alookup_dset_self [DecidableEq κ] (l : List (κ × ν)) (k : κ) (v : ν) :
    alookup (dset l k v) k = some v := by
  induction l with
  | nil => simp [dset, alookup]
  | cons p t iht =>
    by_cases h : p.1 = k
    · simp [dset, h, alookup]
    · simp [dset, h, alookup, iht]

/-! ## The claims -/

/-- C1 (code bug): `Stream.add` compares ids as Python strings, so the
stored/returned ids of successful XADDs are not strictly increasing under
numeric `(ms, seq)` comparison: after `XADD s 5-5`, an `XADD s 3-*` is
resolved to `3-6` and appended (the string test `'3' > '5'` fails and no
other guard runs), yet `3-6` is numerically smaller than the stored `5-5`. -/
theorem xadd_ids_numeric_increase_codebug :
    Stream.add [] "s".data ("5-5".data, ["f".data, "v".data]) 0 =
      some (bulk_string (some "5-5".data),
        [("s".data, [("5-5".data, ["f".data, "v".data])])])
    ∧ Stream.add [("s".data, [("5-5".data, ["f".data, "v".data])])] "s".data
        ("3-*".data, ["f".data, "v".data]) 0 =
      some (bulk_string (some "3-6".data),
        [("s".data, [("5-5".data, ["f".data, "v".data]),
                     ("3-6".data, ["f".data, "v".data])])])
    ∧ specIdNumLt "3-6".data "5-5".data = true := by
  refine ⟨by decide, by decide, by decide⟩

/-- C2 (code bug): the stale-explicit-id check in `Stream.add` is the Python
string comparison `id <= last_entry_id`, not the numeric `(ms, seq)`
comparison of the spec: with last id `9-1`, the explicit id `10-0` is
numerically strictly greater and must be appended, but `'10-0' <= '9-1'`
holds as strings, so the code replies the stale-id error and leaves the
stream unchanged. -/
theorem xadd_explicit_id_numeric_check_codebug :
    Stream.add [] "s".data ("9-1".data, ["f".data, "v".data]) 0 =
      some (bulk_string (some "9-1".data),
        [("s".data, [("9-1".data, ["f".data, "v".data])])])
    ∧ Stream.add [("s".data, [("9-1".data, ["f".data, "v".data])])] "s".data
        ("10-0".data, ["f".data, "v".data]) 0 =
      some (simple_error
        "The ID specified in XADD is equal or smaller than the target stream top item".data,
        [("s".data, [("9-1".data, ["f".data, "v".data])])])
    ∧ specIdNumLt "9-1".data "10-0".data = true := by
  refine ⟨by decide, by decide, by decide⟩

/-- C3 (code bug): `CommandXAdd._respond` fires the stream triggers on the
*raw* XADD id, before the add and under Python string comparison.  For a
reader blocked by `XREAD BLOCK 5000 STREAMS s $` (condition `(s, 0-0)` on an
empty stream), the waking `XADD s * f v` passes the raw id `*` to
`check_stream_triggers`, and `'*' > '0-0'` is false as strings, so the event
is never set — although the add succeeds with resolved id `100-0`, which is
numerically strictly greater than the condition's `0-0`.  The blocked reader
therefore sleeps until its timeout instead of waking when the entry lands. -/
theorem xadd_stream_trigger_codebug :
    xread_block_register ["s".data, "$".data] [("s".data, [])] =
      some ⟨[("s".data, "0-0".data)], false⟩
    ∧ command_xadd [⟨[("s".data, "0-0".data)], false⟩] [("s".data, [])]
        ["XADD".data, "s".data, "*".data, "f".data, "v".data] 100 =
      some ([⟨[("s".data, "0-0".data)], false⟩],
        (bulk_string (some "100-0".data),
         [("s".data, [("100-0".data, ["f".data, "v".data])])]))
    ∧ specIdNumLt "0-0".data "100-0".data = true := by
  refine ⟨by decide, by decide, by decide⟩

/-- C4 counterexample: with `master_repl_offset = 10`, no replicas and
`WAIT 1 500`, the slow path propagates the 37-byte `REPLCONF GETACK *` frame
and `master_repl_offset` becomes 47 ≠ 10 — the propagation does add the
frame's byte length, contrary to the claim. -/
theorem wait_getack_offset_counterexample :
    (command_wait_sync ⟨10, [], []⟩ 1 500).2.1.masterReplOffset = 47
    ∧ (47 : Nat) ≠ 10 := by
  refine ⟨by decide, by decide⟩

/-- C4 (amended): on the WAIT slow path with a positive captured offset, the
GETACK propagation goes through `propagate_command`, which *does* add the
frame's 37-byte length to `master_repl_offset`; the registered trigger,
however, carries the offset captured before the propagation, so the ack
counting still targets the pre-GETACK offset. -/
theorem wait_getack_offset_amended (st : MasterState) (num timeout : Int)
    (h1 : ((count_acks st st.masterReplOffset : Int) < num))
    (h2 : 0 < st.masterReplOffset) :
    (command_wait_sync st num timeout).2.1.masterReplOffset =
      st.masterReplOffset + getAckFrame.length
    ∧ (command_wait_sync st num timeout).2.2 = some ⟨num, st.masterReplOffset⟩
    ∧ getAckFrame.length = 37 := by
  rw [command_wait_sync, if_neg (not_le.mpr h1), if_pos h2]
  exact ⟨rfl, rfl, by decide⟩

theorem wait_getack_offset_amended_witness :
    (((count_acks ⟨10, [], []⟩ 10 : Int) < 1) ∧ 0 < (10 : Nat))
    ∧ ((command_wait_sync ⟨10, [], []⟩ 1 500).2.1.masterReplOffset =
        10 + getAckFrame.length
      ∧ (command_wait_sync ⟨10, [], []⟩ 1 500).2.2 = some ⟨1, 10⟩
      ∧ getAckFrame.length = 37) :=
  ⟨⟨by decide, by decide⟩,
   wait_getack_offset_amended ⟨10, [], []⟩ 1 500 (by decide) (by decide)⟩

/-- C5 (code bug): `Stream.range` filters with Python string comparison, not
numeric `(ms, seq)` comparison.  A stream can legitimately hold `10-0` then
`2-0` (the string guard lets `2-0` in after `10-0`); then
`XRANGE s 1-0 2-0` returns *both* entries because `'1-0' <= '10-0' <= '2-0'`
as strings, although `10-0` is numerically greater than the end bound `2-0`
and the claim requires it to be excluded. -/
theorem xrange_numeric_filter_codebug :
    Stream.add [] "s".data ("10-0".data, ["f".data]) 0 =
      some (bulk_string (some "10-0".data),
        [("s".data, [("10-0".data, ["f".data])])])
    ∧ Stream.add [("s".data, [("10-0".data, ["f".data])])] "s".data
        ("2-0".data, ["g".data]) 0 =
      some (bulk_string (some "2-0".data),
        [("s".data, [("10-0".data, ["f".data]), ("2-0".data, ["g".data])])])
    ∧ command_xrange
        [("s".data, [("10-0".data, ["f".data]), ("2-0".data, ["g".data])])]
        ["XRANGE".data, "s".data, "1-0".data, "2-0".data] =
      some [("10-0".data, ["f".data]), ("2-0".data, ["g".data])]
    ∧ specIdNumLt "2-0".data "10-0".data = true := by
  refine ⟨by decide, by decide, by decide, by decide⟩

/-- C6 counterexample: `SET k v PX 0` at `now = 100` stores the expiry `0`
(Python `px and (now + px)` short-circuits on the falsy `0`), not
`now + 0 = 100`; and a GET at `t = 200 ≥ 100` still returns the value and
leaves the entry in place, because `if expiry and ...` skips the falsy `0`. -/
theorem set_px_zero_counterexample :
    command_set ["SET".data, "k".data, "v".data, "PX".data, "0".data] 100 [] =
      some (simple_string "OK".data,
        [(some (.s "k".data), (some (.s "v".data), some 0))])
    ∧ some (0 : Int) ≠ some ((100 : Int) + 0)
    ∧ command_get ["GET".data, "k".data] 200
        [(some (.s "k".data), (some (.s "v".data), some 0))] =
      some (bulk_string (some "v".data),
        [(some (.s "k".data), (some (.s "v".data), some 0))])
    ∧ bulk_string (some "v".data) ≠ bulk_string none := by
  refine ⟨by decide, by decide, by decide, by decide⟩

/-- C6 (amended): for `SET k v PX ms` with `ms ≥ 1` the stored entry's
absolute expiry is `now + ms`, and any later `GET k` at a time
`t ≥ now + ms` replies the nil bulk string `$-1\r\n` and deletes the entry
(lazy expiry).  The `ms = 0` case fails (see the counterexample), so the
claim's bound `ms ≥ 0` is tightened to `ms ≥ 1`. -/
theorem set_px_expiry_amended (store : DBStore) (k v : Str) (ms : Nat)
    (now t : Int) (h1 : 1 ≤ ms) (h2 : 0 ≤ now) (h3 : now + ms ≤ t) :
    command_set ["SET".data, k, v, "PX".data, natRepr ms] now store =
      some (simple_string "OK".data,
        dset store (some (.s k)) (some (.s v), some (now + ms)))
    ∧ command_get ["GET".data, k] t
        (dset store (some (.s k)) (some (.s v), some (now + ms))) =
      some (bulk_string none,
        dremove (dset store (some (.s k)) (some (.s v), some (now + ms)))
          (some (.s k))) := by
  have hms : ((ms : Int)) ≠ 0 := by
    have : (1 : Int) ≤ (ms : Int) := by exact_mod_cast h1
    omega
  have hup : pyUpper "PX".data = "PX".data := by decide
  constructor
  · simp [command_set, pyInt_natRepr, Database.set, hms, hup]
  · have hne : now + (ms : Int) ≠ 0 := by
      have : (1 : Int) ≤ (ms : Int) := by exact_mod_cast h1
      omega
    simp [command_get, Database.get, alookup_dset_self, hne, h3]

theorem set_px_expiry_amended_witness :
    ((1 ≤ 5) ∧ ((0 : Int) ≤ 100) ∧ ((100 : Int) + (5 : Nat) ≤ 200))
    ∧ (command_set ["SET".data, "k".data, "v".data, "PX".data, natRepr 5] 100 [] =
        some (simple_string "OK".data,
          dset [] (some (.s "k".data)) (some (.s "v".data), some ((100 : Int) + (5 : Nat))))
      ∧ command_get ["GET".data, "k".data] 200
          (dset [] (some (.s "k".data)) (some (.s "v".data), some ((100 : Int) + (5 : Nat)))) =
        some (bulk_string none,
          dremove (dset [] (some (.s "k".data))
            (some (.s "v".data), some ((100 : Int) + (5 : Nat)))) (some (.s "k".data)))) :=
  ⟨⟨by decide, by decide, by decide⟩,
   set_px_expiry_amended [] "k".data "v".data 5 100 200 (by decide) (by decide)
     (by decide)⟩

/-- C7 counterexample: the decoder is not a round-trip inverse of the whole
encoder.  An encoded simple string `+OK\r\n` is consumed by `resp.parse` but
only logged — the parse yields *no* value (`some []`), not the simple string
back; and an encoded integer `:5\r\n` matches no branch of the loop, which
therefore spins without consuming anything — no fuel ever produces a value. -/
theorem resp_roundtrip_counterexample :
    respParse 2 (simple_string "OK".data) = some []
    ∧ some ([] : List (List Str)) ≠ some [["OK".data]]
    ∧ respParse 100 (resp_integer 5) = none
    ∧ respParse 100 (bulk_string (some "pear".data)) = none
    ∧ respParse 100 (bulk_string none) = none := by
  refine ⟨by decide, by decide, by decide, by decide, by decide⟩

/-- C7 (amended): the round-trip does hold for the one shape `resp.parse`
decodes — an array of bulk strings: for every list of strings, feeding the
encoded array to the parse loop terminates in one iteration, yields exactly
that command array, and consumes the entire buffer (the loop ends on the
empty remainder).  Integers, bulk strings and nils are never consumed by
the decoder, and simple strings are consumed but discarded. -/
theorem resp_array_roundtrip (items : List Str) :
    respParse 1 (resp_array (items.map RItem.str)) = some [items] := by
  have hbuf : resp_array (items.map RItem.str) =
      '*' :: (natRepr (items.map RItem.str).length ++
        '\r' :: '\n' :: encItems (items.map RItem.str)) := by
    simp [resp_array]
  have hr := read_array_enc items []
  rw [List.append_nil] at hr
  rw [hbuf] at hr ⊢
  simp only [List.length_map] at hr
  simp [respParse, hr]

/-- C8 counterexample: on a replica, a `GET k` frame arriving on an ordinary
client connection (`fromMasterConn = false`) still bumps
`slave_repl_offset` by its 20-byte packed length — the code checks only the
role, never the connection. -/
theorem replica_offset_client_counterexample :
    execute_offset "slave".data 0 ["GET".data, "k".data] false = 20
    ∧ (20 : Nat) ≠ 0 := by
  refine ⟨by decide, by decide⟩

/-- C8 (amended): on a replica `slave_repl_offset` is incremented by the byte
length of *every* executed frame, whichever connection delivered it; the
increment sits between computing the reply and writing it, as the claim's
first half says, but replication traffic is not distinguished from client
traffic. -/
theorem replica_offset_every_frame (offset : Nat) (array : List Str)
    (fromMasterConn : Bool) :
    execute_offset "slave".data offset array fromMasterConn =
      offset + (command_pack array).length := by
  simp [execute_offset]

/-- C9 counterexample: a well-formed RDB file whose key and value use the
unsupported length encodings (`0x40`: top bits `01`; `0x80`: top bits `10`)
is loaded to completion — the loader does not abort, and the server's store
afterwards contains a junk `None ↦ (None, None)` entry rather than being
empty. -/
theorem rdb_unsupported_length_counterexample :
    persistence_init
        ("REDIS0011".data.map Char.toNat ++
          [0x00, 0x40, 0x80, 0xFF, 1, 2, 3, 4, 5, 6, 7, 8]) =
      some ⟨[], [(none, (none, none))], [], none, none, none,
        [1, 2, 3, 4, 5, 6, 7, 8]⟩
    ∧ ([(none, (none, none))] : DBStore) ≠ [] := by
  refine ⟨by decide, by decide⟩

/-- C9 (amended): on an unsupported length encoding (top two bits `01` or
`10`) `_read_length` returns Python `None` and `_read_string` likewise
returns `None` after consuming only the length byte: the loader does not
abort — it carries the `None`s on (storing `None` keys/values, see the
counterexample) and the startup path never catches a parse failure. -/
theorem rdb_unsupported_length_continues (b : Nat) (rest : List Nat)
    (h : b >>> 6 = 1 ∨ b >>> 6 = 2) :
    read_length (b :: rest) = some (.pynone, rest)
    ∧ read_string (b :: rest) = some (none, rest) := by
  rcases h with h | h <;> simp [read_length, read_string, h]

theorem rdb_unsupported_length_continues_witness :
    (((64 : Nat) >>> 6 = 1) ∨ ((64 : Nat) >>> 6 = 2))
    ∧ (read_length (64 :: [7, 7]) = some (.pynone, [7, 7])
      ∧ read_string (64 :: [7, 7]) = some (none, [7, 7])) :=
  ⟨by decide, rdb_unsupported_length_continues 64 [7, 7] (by decide)⟩

/-- C10 (confirmed): for a key absent from both stores, `XADD key 0-0 …`
replies the `0-0` error, yet the `defaultdict` access `self.store[key]` has
already created an empty entry list under the key, so a subsequent `TYPE`
replies `+stream` where before the XADD it replied `+none`: the stream store
is mutated even when XADD fails. -/
theorem xadd_failure_creates_stream_key (dstore : DBStore) (sstore : SStore)
    (key : Str) (fields : List Str) (now : Int) (snow : Nat)
    (h1 : alookup sstore key = none)
    (h2 : alookup dstore (some (.s key)) = none) :
    Stream.add sstore key ("0-0".data, fields) snow =
      some (simple_error "The ID specified in XADD must be greater than 0-0".data,
        dset sstore key [])
    ∧ Stream.read (dset sstore key []) key = some []
    ∧ command_type ["TYPE".data, key] now dstore (dset sstore key []) =
      some (simple_string "stream".data, dstore)
    ∧ command_type ["TYPE".data, key] now dstore sstore =
      some (simple_string "none".data, dstore) := by
  refine ⟨?_, ?_, ?_, ?_⟩
  · simp [Stream.add, h1]
  · simp [Stream.read, alookup_dset_self]
  · simp [command_type, Database.get, h2, Stream.read, alookup_dset_self]
  · simp [command_type, Database.get, h2, Stream.read, h1]

theorem xadd_failure_creates_stream_key_witness :
    (alookup ([] : SStore) "q".data = none
      ∧ alookup ([] : DBStore) (some (.s "q".data)) = none)
    ∧ (Stream.add [] "q".data ("0-0".data, ["f".data]) 0 =
        some (simple_error "The ID specified in XADD must be greater than 0-0".data,
          dset [] "q".data [])
      ∧ Stream.read (dset [] "q".data []) "q".data = some []
      ∧ command_type ["TYPE".data, "q".data] 0 [] (dset [] "q".data []) =
        some (simple_string "stream".data, [])
      ∧ command_type ["TYPE".data, "q".data] 0 [] [] =
        some (simple_string "none".data, [])) :=
  ⟨⟨by decide, by decide⟩,
   xadd_failure_creates_stream_key [] [] "q".data ["f".data] 0 0 (by decide)
     (by decide)⟩
